import Mathlib

/-!
Shallow embedding of the motion-master-client CLI (src/cli.ts).

JavaScript numbers produced by parseInt / parseFloat are modelled exactly as
either NaN or an exact rational value (double rounding is not modelled; every
value reached by the claims is exactly representable).  The command actions of
the CLI are modelled as pure functions from their inputs (already-parsed option
values, the positional arguments, the device lookup oracle standing for the
external MotionMasterClient engine, and the fresh uuid) to an outcome together
with the ordered list of observable effects the action performs.
-/

/-- Decidable equality for Except, needed to evaluate command outcomes. -/
instance {ε α : Type} [DecidableEq ε] [DecidableEq α] : DecidableEq (Except ε α)
  | Except.error a, Except.error b =>
    match decEq a b with
    | isTrue h => isTrue (h ▸ rfl)
    | isFalse h => isFalse fun hh => h (Except.error.inj hh)
  | Except.error _, Except.ok _ => isFalse fun hh => Except.noConfusion hh
  | Except.ok _, Except.error _ => isFalse fun hh => Except.noConfusion hh
  | Except.ok a, Except.ok b =>
    match decEq a b with
    | isTrue h => isTrue (h ▸ rfl)
    | isFalse h => isFalse fun hh => h (Except.ok.inj hh)

namespace MotionMasterCli

/-- A JavaScript number as it occurs in the CLI: NaN or an exact rational. -/
inductive JSNum
  | nan
  | num (q : Rat)
deriving DecidableEq

/-- JavaScript truthiness of a possibly-undefined number (`none` is
`undefined`): `undefined`, `NaN` and `0` are falsy, every other number is
truthy.  This is the test `if (command.deviceAddress)` performs. -/
def jsTruthy : Option JSNum → Bool
  | none => false
  | some JSNum.nan => false
  | some (JSNum.num q) => decide (q ≠ 0)

/-- `Number.isInteger`: false on NaN, true exactly on integral values. -/
def isIntegerJS : JSNum → Bool
  | JSNum.nan => false
  | JSNum.num q => decide (q.den = 1)

/-- The rational value carried by a JS number; only inspected under an
`isIntegerJS` guard in the code below, so the value chosen for NaN is never
reached. -/
def jsNumValue : JSNum → Rat
  | JSNum.nan => 0
  | JSNum.num q => q

/-- JavaScript string conversion of a number, as used by template literals.
`NaN` prints as "NaN"; integral values print as plain integers.  (Only these
two cases are reachable where the CLI stringifies a number: the position is
stringified only under a `Number.isInteger` guard.) -/
def jsNumToString : JSNum → String
  | JSNum.nan => "NaN"
  | JSNum.num q => if q.den = 1 then toString q.num else toString q

/-- The whitespace characters stripped by parseInt / parseFloat (space, tab,
line feed, carriage return, vertical tab, form feed). -/
def jsWhitespace (c : Char) : Bool :=
  c == ' ' || c == '\t' || c == '\n' || c == '\r' ||
    c == Char.ofNat 11 || c == Char.ofNat 12

/-- Drop leading JS whitespace. -/
def trimStartWs : List Char → List Char
  | [] => []
  | c :: cs => if jsWhitespace c then trimStartWs cs else c :: cs

/-- Strip an optional leading sign, returning the sign and the rest. -/
def splitSign : List Char → Int × List Char
  | [] => (1, [])
  | c :: cs =>
    if c = '-' then (-1, cs)
    else if c = '+' then (1, cs)
    else (1, c :: cs)

/-- The value of one character as a digit in the given radix (0-9, a-z, A-Z),
or `none` when the character is not a digit of that radix. -/
def digitVal? (radix : Nat) (c : Char) : Option Nat :=
  let v : Option Nat :=
    if '0' ≤ c ∧ c ≤ '9' then some (c.toNat - '0'.toNat)
    else if 'a' ≤ c ∧ c ≤ 'z' then some (c.toNat - 'a'.toNat + 10)
    else if 'A' ≤ c ∧ c ≤ 'Z' then some (c.toNat - 'A'.toNat + 10)
    else none
  match v with
  | some d => if d < radix then some d else none
  | none => none

/-- Accumulate the longest prefix of radix digits into a value. -/
def readDigits (radix : Nat) : Nat → List Char → Nat
  | acc, [] => acc
  | acc, c :: cs =>
    match digitVal? radix c with
    | some d => readDigits radix (radix * acc + d) cs
    | none => acc

/-- When the radix is 16, parseInt strips one leading "0x" or "0X" marker. -/
def stripHexMarker : List Char → List Char
  | c0 :: c1 :: rest =>
    if c0 = '0' ∧ (c1 = 'x' ∨ c1 = 'X') then rest else c0 :: c1 :: rest
  | l => l

/-- Whether a string is a nonempty run of digits of the given radix, i.e. a
well-formed numeral without sign, whitespace or hex marker. -/
def isRadixDigits (radix : Nat) (l : List Char) : Bool :=
  !l.isEmpty && l.all fun c => (digitVal? radix c).isSome

/-- The value denoted by a big-endian run of radix digits. -/
def digitsValue (radix : Nat) (l : List Char) : Nat :=
  l.foldl (fun a c => radix * a + (digitVal? radix c).getD 0) 0

/-- ECMAScript parseInt on a character list with an explicit radix: trim
leading whitespace, read an optional sign, strip a hex marker when the radix
is 16, then convert the longest prefix of radix digits; NaN when that prefix
is empty. -/
def parseIntJS (radix : Nat) (l : List Char) : JSNum :=
  let t := trimStartWs l
  let sr := splitSign t
  let rest := if radix = 16 then stripHexMarker sr.2 else sr.2
  match rest with
  | [] => JSNum.nan
  | c :: cs =>
    match digitVal? radix c with
    | none => JSNum.nan
    | some d => JSNum.num ((sr.1 * (readDigits radix d cs : Int) : Int) : Rat)

/-- Read the longest prefix of decimal digits, returning the digits and the
remaining characters. -/
def readDecDigits : List Char → List Nat × List Char
  | [] => ([], [])
  | c :: cs =>
    match digitVal? 10 c with
    | some d =>
      let r := readDecDigits cs
      (d :: r.1, r.2)
    | none => ([], c :: cs)

/-- The natural number denoted by a big-endian list of decimal digit values. -/
def digitsToNat (l : List Nat) : Nat :=
  l.foldl (fun a d => 10 * a + d) 0

/-- ECMAScript parseFloat on a character list: trim leading whitespace, read
an optional sign, then the longest decimal literal prefix
(digits, optional point and fraction digits, optional exponent); NaN when no
digit is found.  The "Infinity" literal is not modelled (no claim reaches
it).  The denoted value sign * (intDigits.fracDigits) * 10^exponent is built
exactly as one integer quotient: one of `expVal.toNat` and `(-expVal).toNat`
is always zero, so the numerator carries the non-negative part of the
exponent and the denominator its negative part together with the fraction
length. -/
def parseFloatJS (l : List Char) : JSNum :=
  let t := trimStartWs l
  let sr := splitSign t
  let ip := readDecDigits sr.2
  let fp :=
    match ip.2 with
    | '.' :: cs => readDecDigits cs
    | _ => ([], ip.2)
  if ip.1 = [] ∧ fp.1 = [] then JSNum.nan
  else
    let mantissa : Nat := digitsToNat ip.1 * 10 ^ fp.1.length + digitsToNat fp.1
    let expVal : Int :=
      match fp.2 with
      | c :: cs =>
        if c = 'e' ∨ c = 'E' then
          let es := splitSign cs
          let ed := readDecDigits es.2
          if ed.1 = [] then 0 else es.1 * (digitsToNat ed.1 : Int)
        else 0
      | [] => 0
    JSNum.num
      (Rat.divInt (sr.1 * (mantissa : Int) * (10 : Int) ^ expVal.toNat)
        ((10 : Int) ^ (fp.1.length + (-expVal).toNat)))

/-- JavaScript String.prototype.split with a one-character separator:
"".split(sep) is [""], and every occurrence of the separator starts a new
field. -/
def splitOnChar (sep : Char) : List Char → List (List Char)
  | [] => [[]]
  | c :: cs =>
    let r := splitOnChar sep cs
    if c = sep then [] :: r
    else (c :: r.headD []) :: r.tail

/-- JavaScript coerces the `undefined` produced by destructuring a too-short
split result to the string "undefined" before parseInt / parseFloat sees it. -/
def jsUndefinedText : List Char :=
  ['u', 'n', 'd', 'e', 'f', 'i', 'n', 'e', 'd']

/-- Coerce a possibly-missing split component the way JS does before parsing. -/
def coerceUndefined : Option (List Char) → List Char
  | none => jsUndefinedText
  | some l => l

/-- The pair produced by paramToIndexAndSubindex: both components are JS
numbers (possibly NaN). -/
structure ParamAddr where
  index : JSNum
  subindex : JSNum
deriving DecidableEq

/-- The record produced by paramValueToIndexAndSubindex. -/
structure ParamValue where
  index : JSNum
  subindex : JSNum
  intValue : JSNum
  uintValue : JSNum
  floatValue : JSNum
deriving DecidableEq

/-- cli.ts paramToIndexAndSubindex on the characters of the argument:
split on the colon, parse the first field with radix 16 and the second with
radix 10. -/
def paramToIndexAndSubindexChars (param : List Char) : ParamAddr :=
  let parts := splitOnChar ':' param
  let indexStr := parts.headD []
  let subindexStr := parts[1]?
  { index := parseIntJS 16 indexStr,
    subindex := parseIntJS 10 (coerceUndefined subindexStr) }

/-- cli.ts paramToIndexAndSubindex. -/
def paramToIndexAndSubindex (param : String) : ParamAddr :=
  paramToIndexAndSubindexChars param.data

/-- cli.ts paramValueToIndexAndSubindex on characters: split on the equals
sign, parse the left side as a parameter address and the right side with
parseFloat, and store the same parsed value in all three numeric fields. -/
def paramValueToIndexAndSubindexChars (paramValue : List Char) : ParamValue :=
  let parts := splitOnChar '=' paramValue
  let param := parts.headD []
  let valueStr := parts[1]?
  let pa := paramToIndexAndSubindexChars param
  let value := parseFloatJS (coerceUndefined valueStr)
  { index := pa.index, subindex := pa.subindex,
    intValue := value, uintValue := value, floatValue := value }

/-- cli.ts paramValueToIndexAndSubindex. -/
def paramValueToIndexAndSubindex (paramValue : String) : ParamValue :=
  paramValueToIndexAndSubindexChars paramValue.data

/-- cli.ts parseOptionValueAsInt: parseInt with radix 10. -/
def parseOptionValueAsInt (value : List Char) : JSNum :=
  parseIntJS 10 value

/-- A device as returned by the engine's position lookup; only its address is
read by the CLI. -/
structure Device where
  deviceAddress : Rat
deriving DecidableEq

/-- One call into the external MotionMasterClient request-builder surface,
recording exactly the arguments the CLI passes. -/
inductive BuilderCall
  | getSystemVersion (messageId : String)
  | getDeviceInfo (messageId : String)
  | getDeviceParameterInfo (deviceAddress : Option JSNum) (messageId : String)
  | getDeviceParameterValues (deviceAddress : Option JSNum)
      (parameters : List ParamAddr) (messageId : String)
  | getDeviceFileList (deviceAddress : Option JSNum)
  | getDeviceLog (deviceAddress : Option JSNum)
  | setDeviceParameterValues (deviceAddress : Option JSNum)
      (parameterValues : List ParamValue) (messageId : String)
deriving DecidableEq

/-- The message id argument a builder call passes to the client, when the CLI
passes one at all. -/
def BuilderCall.messageId? : BuilderCall → Option String
  | BuilderCall.getSystemVersion mid => some mid
  | BuilderCall.getDeviceInfo mid => some mid
  | BuilderCall.getDeviceParameterInfo _ mid => some mid
  | BuilderCall.getDeviceParameterValues _ _ mid => some mid
  | BuilderCall.getDeviceFileList _ => none
  | BuilderCall.getDeviceLog _ => none
  | BuilderCall.setDeviceParameterValues _ _ mid => some mid

/-- The observable effects a CLI command action performs, in program order. -/
inductive CliEvent
  | lookupDevice (position : Rat)
  | registerExit (messageId : String)
  | builderCall (call : BuilderCall)
  | subscribeTopic (topic : String)
  | startMonitoring (interval : JSNum) (topic : String)
      (parameters : List ParamAddr) (deviceAddress : Option JSNum)
deriving DecidableEq

/-- cli.ts getCommandDeviceAddress: a truthy explicit device address is
returned directly; otherwise, when the device position is an integer, one
position lookup resolves the device (throwing when there is none); otherwise
the function falls through and returns undefined. -/
def getCommandDeviceAddress (addr : Option JSNum) (pos : JSNum)
    (lookup : Rat → Option Device) :
    Except String (Option JSNum) × List CliEvent :=
  if jsTruthy addr then
    (Except.ok addr, [])
  else if isIntegerJS pos then
    let p := jsNumValue pos
    match lookup p with
    | some device =>
      (Except.ok (some (JSNum.num device.deviceAddress)), [CliEvent.lookupDevice p])
    | none =>
      (Except.error ("There is no device at position " ++ jsNumToString pos),
        [CliEvent.lookupDevice p])
  else
    (Except.ok none, [])

/-- The message thrown by the request command's default branch; cli.ts
interpolates `program.request`, which is undefined there.  The apostrophe of
the source literal is spelled via its code point. -/
def requestDoesNotExistMessage : String :=
  "Request \"undefined\" doesn" ++ String.singleton (Char.ofNat 39) ++ "t exist"

/-- The request command action: resolve the device address, draw a fresh
message id, register the exit-on-first-reply subscription, then dispatch on
the request type.  The GetDeviceFileList and GetDeviceLog branches pass no
message id to the builder, exactly as in cli.ts. -/
def requestCommandAction (ty : String) (args : List String)
    (addr : Option JSNum) (pos : JSNum) (lookup : Rat → Option Device)
    (freshId : String) : Except String Unit × List CliEvent :=
  let g := getCommandDeviceAddress addr pos lookup
  match g.1 with
  | Except.error e => (Except.error e, g.2)
  | Except.ok deviceAddress =>
    let messageId := freshId
    let evs := g.2 ++ [CliEvent.registerExit messageId]
    if ty = "GetSystemVersion" then
      (Except.ok (), evs ++ [CliEvent.builderCall (BuilderCall.getSystemVersion messageId)])
    else if ty = "GetDeviceInfo" then
      (Except.ok (), evs ++ [CliEvent.builderCall (BuilderCall.getDeviceInfo messageId)])
    else if ty = "GetDeviceParameterInfo" then
      (Except.ok (), evs ++
        [CliEvent.builderCall (BuilderCall.getDeviceParameterInfo deviceAddress messageId)])
    else if ty = "GetDeviceParameterValues" then
      let parameters := args.map paramToIndexAndSubindex
      (Except.ok (), evs ++
        [CliEvent.builderCall
          (BuilderCall.getDeviceParameterValues deviceAddress parameters messageId)])
    else if ty = "GetDeviceFileList" then
      (Except.ok (), evs ++ [CliEvent.builderCall (BuilderCall.getDeviceFileList deviceAddress)])
    else if ty = "GetDeviceLog" then
      (Except.ok (), evs ++ [CliEvent.builderCall (BuilderCall.getDeviceLog deviceAddress)])
    else
      (Except.error requestDoesNotExistMessage, evs)

/-- The upload command action: resolve the device address, parse the
parameters, register the exit subscription for a fresh id, then issue one
GetDeviceParameterValues request carrying that id. -/
def uploadCommandAction (params : List String) (addr : Option JSNum)
    (pos : JSNum) (lookup : Rat → Option Device) (freshId : String) :
    Except String Unit × List CliEvent :=
  let g := getCommandDeviceAddress addr pos lookup
  match g.1 with
  | Except.error e => (Except.error e, g.2)
  | Except.ok deviceAddress =>
    let parameters := params.map paramToIndexAndSubindex
    let messageId := freshId
    (Except.ok (), g.2 ++
      [CliEvent.registerExit messageId,
        CliEvent.builderCall
          (BuilderCall.getDeviceParameterValues deviceAddress parameters messageId)])

/-- The download command action: resolve the device address, parse the
parameter values, register the exit subscription for a fresh id, then issue
one SetDeviceParameterValues request carrying that id. -/
def downloadCommandAction (paramValues : List String) (addr : Option JSNum)
    (pos : JSNum) (lookup : Rat → Option Device) (freshId : String) :
    Except String Unit × List CliEvent :=
  let g := getCommandDeviceAddress addr pos lookup
  match g.1 with
  | Except.error e => (Except.error e, g.2)
  | Except.ok deviceAddress =>
    let parameters := paramValues.map paramValueToIndexAndSubindex
    let messageId := freshId
    (Except.ok (), g.2 ++
      [CliEvent.registerExit messageId,
        CliEvent.builderCall
          (BuilderCall.setDeviceParameterValues deviceAddress parameters messageId)])

/-- The monitor command action: resolve the device address, subscribe to the
topic-filtered notification stream, then start monitoring with the parsed
interval and parameters. -/
def monitorCommandAction (topic : String) (params : List String)
    (addr : Option JSNum) (pos : JSNum) (intervalOpt : JSNum)
    (lookup : Rat → Option Device) : Except String Unit × List CliEvent :=
  let g := getCommandDeviceAddress addr pos lookup
  match g.1 with
  | Except.error e => (Except.error e, g.2)
  | Except.ok deviceAddress =>
    let evs := g.2 ++ [CliEvent.subscribeTopic topic]
    let interval := intervalOpt
    let parameters := params.map paramToIndexAndSubindex
    (Except.ok (), evs ++
      [CliEvent.startMonitoring interval topic parameters deviceAddress])

/-- The message ids the trace registers via exitOnMessageReceived, in order. -/
def registeredIds (evs : List CliEvent) : List String :=
  evs.filterMap fun e =>
    match e with
    | CliEvent.registerExit mid => some mid
    | _ => none

/-- The message id arguments of the builder calls in a trace, in order. -/
def builderIds (evs : List CliEvent) : List (Option String) :=
  evs.filterMap fun e =>
    match e with
    | CliEvent.builderCall b => some b.messageId?
    | _ => none

/-- How many device position lookups a trace performs. -/
def countLookups (evs : List CliEvent) : Nat :=
  evs.countP fun e =>
    match e with
    | CliEvent.lookupDevice _ => true
    | _ => false

/-- Whether a trace contains any builder call, i.e. issues any request. -/
def hasBuilderCall (evs : List CliEvent) : Bool :=
  evs.any fun e =>
    match e with
    | CliEvent.builderCall _ => true
    | _ => false

/-- Checker for register-before-send: scanning the trace left to right, every
builder call must be preceded by some registerExit event. -/
def submitsAfterRegister : Bool → List CliEvent → Bool
  | _, [] => true
  | seen, e :: rest =>
    match e with
    | CliEvent.registerExit _ => submitsAfterRegister true rest
    | CliEvent.builderCall _ => seen && submitsAfterRegister seen rest
    | _ => submitsAfterRegister seen rest

/-- Checker for subscribe-before-start: scanning the trace left to right,
every startMonitoring invocation must be preceded by a topic subscription. -/
def subscribeBeforeStart : Bool → List CliEvent → Bool
  | _, [] => true
  | seen, e :: rest =>
    match e with
    | CliEvent.subscribeTopic _ => subscribeBeforeStart true rest
    | CliEvent.startMonitoring _ _ _ _ => seen && subscribeBeforeStart seen rest
    | _ => subscribeBeforeStart seen rest

/-- An inbound motion-master message as seen by the exit subscription; only
its correlation id is inspected. -/
structure MMessage where
  id : String
deriving DecidableEq

/-- The rxjs filter operator on a finite emission history. -/
def rxFilter (p : α → Bool) (stream : List α) : List α :=
  stream.filter p

/-- The rxjs first operator on a finite emission history: at most the first
emission passes and the subscription then completes. -/
def rxFirst (stream : List α) : List α :=
  stream.take 1

/-- cli.ts exitOnMessageReceived, as the number of process-exit calls the
subscription performs over a finite history of inbound messages: the stream
is filtered by id equality, capped by first(), and the subscriber exits only
when the exit flag is set. -/
def exitOnMessageReceivedExits (messageId : String) (exit : Bool)
    (stream : List MMessage) : Nat :=
  if exit then (rxFirst (rxFilter (fun m => m.id == messageId) stream)).length
  else 0

/-! ### Helper lemmas about the parsing layer -/

theorem splitOnChar_of_not_mem {sep : Char} : ∀ {l : List Char}, sep ∉ l →
    splitOnChar sep l = [l] := by
  intro l
  induction l with
  | nil => intro _; rfl
  | cons c cs ih =>
    intro h
    have hc : ¬ c = sep := fun hh => h (hh ▸ List.mem_cons_self c cs)
    have hcs : sep ∉ cs := fun hh => h (List.mem_cons_of_mem _ hh)
    simp [splitOnChar, ih hcs, hc]

theorem splitOnChar_append {sep : Char} (rest : List Char) :
    ∀ pre : List Char, sep ∉ pre →
      splitOnChar sep (pre ++ sep :: rest) = pre :: splitOnChar sep rest := by
  intro pre
  induction pre with
  | nil => intro _; simp [splitOnChar]
  | cons c cs ih =>
    intro h
    have hc : ¬ c = sep := fun hh => h (hh ▸ List.mem_cons_self c cs)
    have hcs : sep ∉ cs := fun hh => h (List.mem_cons_of_mem _ hh)
    simp [splitOnChar, ih hcs, hc]

theorem paramToIndexAndSubindexChars_split {i s : List Char}
    (hi : ':' ∉ i) (hs : ':' ∉ s) :
    paramToIndexAndSubindexChars (i ++ ':' :: s) =
      { index := parseIntJS 16 i, subindex := parseIntJS 10 s } := by
  simp only [paramToIndexAndSubindexChars]
  rw [splitOnChar_append s i hi, splitOnChar_of_not_mem hs]
  rfl

theorem paramToIndexAndSubindexChars_no_sep {p : List Char} (hp : ':' ∉ p) :
    paramToIndexAndSubindexChars p =
      { index := parseIntJS 16 p, subindex := JSNum.nan } := by
  have hnan : parseIntJS 10 jsUndefinedText = JSNum.nan := by decide
  simp only [paramToIndexAndSubindexChars]
  rw [splitOnChar_of_not_mem hp]
  simp [coerceUndefined, hnan]

theorem paramValueToIndexAndSubindexChars_split {p v : List Char}
    (hp : '=' ∉ p) (hv : '=' ∉ v) :
    paramValueToIndexAndSubindexChars (p ++ '=' :: v) =
      { index := (paramToIndexAndSubindexChars p).index,
        subindex := (paramToIndexAndSubindexChars p).subindex,
        intValue := parseFloatJS v, uintValue := parseFloatJS v,
        floatValue := parseFloatJS v } := by
  simp only [paramValueToIndexAndSubindexChars]
  rw [splitOnChar_append v p hp, splitOnChar_of_not_mem hv]
  rfl

theorem digit_ranges {radix : Nat} {c : Char}
    (h : (digitVal? radix c).isSome = true) :
    ('0' ≤ c ∧ c ≤ '9') ∨ ('a' ≤ c ∧ c ≤ 'z') ∨ ('A' ≤ c ∧ c ≤ 'Z') := by
  by_cases hA : '0' ≤ c ∧ c ≤ '9'
  · exact Or.inl hA
  by_cases hB : 'a' ≤ c ∧ c ≤ 'z'
  · exact Or.inr (Or.inl hB)
  by_cases hC : 'A' ≤ c ∧ c ≤ 'Z'
  · exact Or.inr (Or.inr hC)
  simp [digitVal?, hA, hB, hC] at h

theorem ws_eq_false_of_digit {radix : Nat} {c : Char}
    (h : (digitVal? radix c).isSome = true) : jsWhitespace c = false := by
  have hr := digit_ranges h
  have h1 : c ≠ ' ' := by rintro rfl; revert hr; decide
  have h2 : c ≠ '\t' := by rintro rfl; revert hr; decide
  have h3 : c ≠ '\n' := by rintro rfl; revert hr; decide
  have h4 : c ≠ '\r' := by rintro rfl; revert hr; decide
  have h5 : c ≠ Char.ofNat 11 := by rintro rfl; revert hr; decide
  have h6 : c ≠ Char.ofNat 12 := by rintro rfl; revert hr; decide
  simp [jsWhitespace, beq_false_of_ne h1, beq_false_of_ne h2, beq_false_of_ne h3,
    beq_false_of_ne h4, beq_false_of_ne h5, beq_false_of_ne h6]

theorem sign_ne_of_digit {radix : Nat} {c : Char}
    (h : (digitVal? radix c).isSome = true) : ¬ c = '-' ∧ ¬ c = '+' := by
  have hr := digit_ranges h
  constructor <;> · rintro rfl; revert hr; decide

theorem readDigits_eq_foldl (radix : Nat) (cs : List Char) :
    ∀ acc : Nat, (∀ c ∈ cs, (digitVal? radix c).isSome = true) →
      readDigits radix acc cs =
        cs.foldl (fun a c => radix * a + (digitVal? radix c).getD 0) acc := by
  induction cs with
  | nil => intro acc _; rfl
  | cons c cs ih =>
    intro acc h
    obtain ⟨d, hd⟩ := Option.isSome_iff_exists.mp (h c (List.mem_cons_self c cs))
    simp only [readDigits, hd, List.foldl_cons, Option.getD_some]
    exact ih (radix * acc + d) (fun x hx => h x (List.mem_cons_of_mem _ hx))

theorem parseIntJS_of_digits {radix : Nat} (hradix : radix = 10 ∨ radix = 16)
    {l : List Char} (hne : l ≠ [])
    (hd : ∀ c ∈ l, (digitVal? radix c).isSome = true) :
    parseIntJS radix l = JSNum.num (digitsValue radix l) := by
  obtain ⟨c, cs, rfl⟩ : ∃ c cs, l = c :: cs := by
    cases l with
    | nil => exact absurd rfl hne
    | cons c cs => exact ⟨c, cs, rfl⟩
  have hc := hd c (List.mem_cons_self c cs)
  obtain ⟨d, hdc⟩ := Option.isSome_iff_exists.mp hc
  have hws := ws_eq_false_of_digit hc
  obtain ⟨hminus, hplus⟩ := sign_ne_of_digit hc
  have htrim : trimStartWs (c :: cs) = c :: cs := by simp [trimStartWs, hws]
  have hsign : splitSign (c :: cs) = (1, c :: cs) := by simp [splitSign, hminus, hplus]
  have hstrip : (if radix = 16 then stripHexMarker (c :: cs) else c :: cs) = c :: cs := by
    rcases hradix with rfl | rfl
    · simp
    · cases cs with
      | nil => simp [stripHexMarker]
      | cons c2 rest =>
        have hc2 := hd c2 (List.mem_cons_of_mem _ (List.mem_cons_self c2 rest))
        have hx : ¬ c2 = 'x' := by rintro rfl; revert hc2; decide
        have hX : ¬ c2 = 'X' := by rintro rfl; revert hc2; decide
        simp [stripHexMarker, hx, hX]
  have hrd := readDigits_eq_foldl radix cs d (fun x hx => hd x (List.mem_cons_of_mem _ hx))
  simp only [parseIntJS, htrim, hsign]
  rw [hstrip]
  simp [hdc, hrd, digitsValue, one_mul]

theorem isRadixDigits_spec {radix : Nat} {l : List Char}
    (h : isRadixDigits radix l = true) :
    l ≠ [] ∧ ∀ c ∈ l, (digitVal? radix c).isSome = true := by
  rw [isRadixDigits, Bool.and_eq_true] at h
  obtain ⟨h1, h2⟩ := h
  refine ⟨List.isEmpty_eq_false.mp (by simpa using h1), fun c hc => ?_⟩
  simpa using List.all_eq_true.mp h2 c hc

/-! ### Helper lemmas about device-address resolution and traces -/

theorem gcda_of_truthy {addr : Option JSNum} (pos : JSNum)
    (lookup : Rat → Option Device) (h : jsTruthy addr = true) :
    getCommandDeviceAddress addr pos lookup = (Except.ok addr, []) := by
  simp [getCommandDeviceAddress, h]

theorem gcda_of_not_int {addr : Option JSNum} {pos : JSNum}
    (lookup : Rat → Option Device) (h1 : jsTruthy addr = false)
    (h2 : isIntegerJS pos = false) :
    getCommandDeviceAddress addr pos lookup = (Except.ok none, []) := by
  simp [getCommandDeviceAddress, h1, h2]

theorem gcda_lookup_found {addr : Option JSNum} {p : Rat}
    {lookup : Rat → Option Device} {d : Device} (h1 : jsTruthy addr = false)
    (hp : p.den = 1) (hl : lookup p = some d) :
    getCommandDeviceAddress addr (JSNum.num p) lookup =
      (Except.ok (some (JSNum.num d.deviceAddress)), [CliEvent.lookupDevice p]) := by
  simp [getCommandDeviceAddress, h1, isIntegerJS, hp, jsNumValue, hl]

theorem gcda_lookup_missing {addr : Option JSNum} {p : Rat}
    {lookup : Rat → Option Device} (h1 : jsTruthy addr = false)
    (hp : p.den = 1) (hl : lookup p = none) :
    getCommandDeviceAddress addr (JSNum.num p) lookup =
      (Except.error ("There is no device at position " ++ jsNumToString (JSNum.num p)),
        [CliEvent.lookupDevice p]) := by
  simp [getCommandDeviceAddress, h1, isIntegerJS, hp, jsNumValue, hl]

theorem gcda_events (addr : Option JSNum) (pos : JSNum)
    (lookup : Rat → Option Device) :
    (getCommandDeviceAddress addr pos lookup).2 = [] ∨
      ∃ p, (getCommandDeviceAddress addr pos lookup).2 = [CliEvent.lookupDevice p] := by
  rcases Bool.eq_false_or_eq_true (jsTruthy addr) with h1 | h1
  · left; simp [getCommandDeviceAddress, h1]
  · rcases Bool.eq_false_or_eq_true (isIntegerJS pos) with h2 | h2
    · rcases hl : lookup (jsNumValue pos) with _ | d
      · right
        exact ⟨jsNumValue pos, by simp [getCommandDeviceAddress, h1, h2, hl]⟩
      · right
        exact ⟨jsNumValue pos, by simp [getCommandDeviceAddress, h1, h2, hl]⟩
    · left; simp [getCommandDeviceAddress, h1, h2]

theorem submitsAfterRegister_gcda_append (addr : Option JSNum) (pos : JSNum)
    (lookup : Rat → Option Device) (b : Bool) (rest : List CliEvent) :
    submitsAfterRegister b ((getCommandDeviceAddress addr pos lookup).2 ++ rest) =
      submitsAfterRegister b rest := by
  rcases gcda_events addr pos lookup with h | ⟨p, h⟩ <;> rw [h] <;>
    simp [submitsAfterRegister]

theorem subscribeBeforeStart_gcda_append (addr : Option JSNum) (pos : JSNum)
    (lookup : Rat → Option Device) (b : Bool) (rest : List CliEvent) :
    subscribeBeforeStart b ((getCommandDeviceAddress addr pos lookup).2 ++ rest) =
      subscribeBeforeStart b rest := by
  rcases gcda_events addr pos lookup with h | ⟨p, h⟩ <;> rw [h] <;>
    simp [subscribeBeforeStart]

theorem submitsAfterRegister_gcda (addr : Option JSNum) (pos : JSNum)
    (lookup : Rat → Option Device) (b : Bool) :
    submitsAfterRegister b (getCommandDeviceAddress addr pos lookup).2 = true := by
  rcases gcda_events addr pos lookup with h | ⟨p, h⟩ <;> rw [h] <;>
    simp [submitsAfterRegister]

theorem subscribeBeforeStart_gcda (addr : Option JSNum) (pos : JSNum)
    (lookup : Rat → Option Device) (b : Bool) :
    subscribeBeforeStart b (getCommandDeviceAddress addr pos lookup).2 = true := by
  rcases gcda_events addr pos lookup with h | ⟨p, h⟩ <;> rw [h] <;>
    simp [subscribeBeforeStart]

theorem registeredIds_append (l1 l2 : List CliEvent) :
    registeredIds (l1 ++ l2) = registeredIds l1 ++ registeredIds l2 := by
  simp [registeredIds, List.filterMap_append]

theorem builderIds_append (l1 l2 : List CliEvent) :
    builderIds (l1 ++ l2) = builderIds l1 ++ builderIds l2 := by
  simp [builderIds, List.filterMap_append]

theorem registeredIds_gcda (addr : Option JSNum) (pos : JSNum)
    (lookup : Rat → Option Device) :
    registeredIds (getCommandDeviceAddress addr pos lookup).2 = [] := by
  rcases gcda_events addr pos lookup with h | ⟨p, h⟩ <;> rw [h] <;>
    simp [registeredIds]

theorem builderIds_gcda (addr : Option JSNum) (pos : JSNum)
    (lookup : Rat → Option Device) :
    builderIds (getCommandDeviceAddress addr pos lookup).2 = [] := by
  rcases gcda_events addr pos lookup with h | ⟨p, h⟩ <;> rw [h] <;>
    simp [builderIds]

theorem registeredIds_cons_register (mid : String) (rest : List CliEvent) :
    registeredIds (CliEvent.registerExit mid :: rest) = mid :: registeredIds rest := by
  simp [registeredIds]

theorem registeredIds_cons_builder (b : BuilderCall) (rest : List CliEvent) :
    registeredIds (CliEvent.builderCall b :: rest) = registeredIds rest := by
  simp [registeredIds]

theorem registeredIds_nil : registeredIds [] = [] := rfl

theorem builderIds_cons_register (mid : String) (rest : List CliEvent) :
    builderIds (CliEvent.registerExit mid :: rest) = builderIds rest := by
  simp [builderIds]

theorem builderIds_cons_builder (b : BuilderCall) (rest : List CliEvent) :
    builderIds (CliEvent.builderCall b :: rest) = b.messageId? :: builderIds rest := by
  simp [builderIds]

theorem builderIds_nil : builderIds [] = [] := rfl

/-! ### Claim theorems -/

/-- C1 counterexample: in the request command's GetDeviceFileList branch the
fresh message id "mid" is registered for exit-on-first-reply, but the builder
call is issued without any message id, so the awaited future is keyed by an
id that is never attached to the issued request. -/
theorem getDeviceFileList_drops_messageId :
    registeredIds (requestCommandAction "GetDeviceFileList" [] (some (JSNum.num 1))
        (JSNum.num 0) (fun _ => none) "mid").2 = ["mid"]
    ∧ builderIds (requestCommandAction "GetDeviceFileList" [] (some (JSNum.num 1))
        (JSNum.num 0) (fun _ => none) "mid").2 = [none]
    ∧ (none : Option String) ≠ some "mid" := by
  refine ⟨by decide, by decide, by decide⟩

/-- C1 (amended): for the GetSystemVersion, GetDeviceInfo,
GetDeviceParameterInfo and GetDeviceParameterValues request branches and for
the upload and download commands, the fresh id registered via
exitOnMessageReceived is exactly the id passed to the builder call; the
GetDeviceFileList and GetDeviceLog branches register the fresh id but pass no
id to the builder at all. -/
theorem registered_id_matches_builder_id (ty : String)
    (args params paramValues : List String) (addr : Option JSNum) (pos : JSNum)
    (lookup : Rat → Option Device) (freshId : String) :
    (ty = "GetSystemVersion" ∨ ty = "GetDeviceInfo" ∨ ty = "GetDeviceParameterInfo"
        ∨ ty = "GetDeviceParameterValues" →
      (requestCommandAction ty args addr pos lookup freshId).1 = Except.ok () →
      registeredIds (requestCommandAction ty args addr pos lookup freshId).2 = [freshId]
        ∧ builderIds (requestCommandAction ty args addr pos lookup freshId).2 = [some freshId])
    ∧ (ty = "GetDeviceFileList" ∨ ty = "GetDeviceLog" →
      (requestCommandAction ty args addr pos lookup freshId).1 = Except.ok () →
      registeredIds (requestCommandAction ty args addr pos lookup freshId).2 = [freshId]
        ∧ builderIds (requestCommandAction ty args addr pos lookup freshId).2 = [none])
    ∧ ((uploadCommandAction params addr pos lookup freshId).1 = Except.ok () →
      registeredIds (uploadCommandAction params addr pos lookup freshId).2 = [freshId]
        ∧ builderIds (uploadCommandAction params addr pos lookup freshId).2 = [some freshId])
    ∧ ((downloadCommandAction paramValues addr pos lookup freshId).1 = Except.ok () →
      registeredIds (downloadCommandAction paramValues addr pos lookup freshId).2 = [freshId]
        ∧ builderIds (downloadCommandAction paramValues addr pos lookup freshId).2
            = [some freshId]) := by
  refine ⟨?_, ?_, ?_, ?_⟩
  · intro hty hok
    rcases hg : (getCommandDeviceAddress addr pos lookup).1 with e | dv
    · simp only [requestCommandAction, hg] at hok
      exact absurd hok (by simp)
    · rcases hty with rfl | rfl | rfl | rfl <;>
        simp [requestCommandAction, hg, List.append_assoc, registeredIds_append,
          builderIds_append, registeredIds_gcda, builderIds_gcda,
          registeredIds_cons_register, registeredIds_cons_builder, registeredIds_nil,
          builderIds_cons_register, builderIds_cons_builder, builderIds_nil,
          BuilderCall.messageId?]
  · intro hty hok
    rcases hg : (getCommandDeviceAddress addr pos lookup).1 with e | dv
    · simp only [requestCommandAction, hg] at hok
      exact absurd hok (by simp)
    · rcases hty with rfl | rfl <;>
        simp [requestCommandAction, hg, List.append_assoc, registeredIds_append,
          builderIds_append, registeredIds_gcda, builderIds_gcda,
          registeredIds_cons_register, registeredIds_cons_builder, registeredIds_nil,
          builderIds_cons_register, builderIds_cons_builder, builderIds_nil,
          BuilderCall.messageId?]
  · intro hok
    rcases hg : (getCommandDeviceAddress addr pos lookup).1 with e | dv
    · simp only [uploadCommandAction, hg] at hok
      exact absurd hok (by simp)
    · simp [uploadCommandAction, hg, registeredIds_append, builderIds_append,
        registeredIds_gcda, builderIds_gcda, registeredIds_cons_register,
        registeredIds_cons_builder, registeredIds_nil, builderIds_cons_register,
        builderIds_cons_builder, builderIds_nil, BuilderCall.messageId?]
  · intro hok
    rcases hg : (getCommandDeviceAddress addr pos lookup).1 with e | dv
    · simp only [downloadCommandAction, hg] at hok
      exact absurd hok (by simp)
    · simp [downloadCommandAction, hg, registeredIds_append, builderIds_append,
        registeredIds_gcda, builderIds_gcda, registeredIds_cons_register,
        registeredIds_cons_builder, registeredIds_nil, builderIds_cons_register,
        builderIds_cons_builder, builderIds_nil, BuilderCall.messageId?]

/-- Witness for the amended C1 at the GetSystemVersion branch. -/
theorem registered_id_matches_builder_id_witness :
    registeredIds (requestCommandAction "GetSystemVersion" [] (some (JSNum.num 7))
        (JSNum.num 0) (fun _ => none) "m").2 = ["m"]
    ∧ builderIds (requestCommandAction "GetSystemVersion" [] (some (JSNum.num 7))
        (JSNum.num 0) (fun _ => none) "m").2 = [some "m"] :=
  (registered_id_matches_builder_id "GetSystemVersion" [] [] [] (some (JSNum.num 7))
      (JSNum.num 0) (fun _ => none) "m").1 (Or.inl rfl) (by decide)

/-- C2: for every request, upload, and download command, the
exit-on-first-reply registration is installed strictly before the request is
submitted to the client: in every possible trace each builder call is
preceded by a registerExit event. -/
theorem register_before_submit (ty : String)
    (args params paramValues : List String) (addr : Option JSNum)
    (pos : JSNum) (lookup : Rat → Option Device) (freshId : String) :
    submitsAfterRegister false
        (requestCommandAction ty args addr pos lookup freshId).2 = true
    ∧ submitsAfterRegister false
        (uploadCommandAction params addr pos lookup freshId).2 = true
    ∧ submitsAfterRegister false
        (downloadCommandAction paramValues addr pos lookup freshId).2 = true := by
  refine ⟨?_, ?_, ?_⟩
  · simp only [requestCommandAction]
    split
    · exact submitsAfterRegister_gcda addr pos lookup false
    · split_ifs <;>
        simp [List.append_assoc, submitsAfterRegister_gcda_append, submitsAfterRegister]
  · simp only [uploadCommandAction]
    split
    · exact submitsAfterRegister_gcda addr pos lookup false
    · simp [submitsAfterRegister_gcda_append, submitsAfterRegister]
  · simp only [downloadCommandAction]
    split
    · exact submitsAfterRegister_gcda addr pos lookup false
    · simp [submitsAfterRegister_gcda_append, submitsAfterRegister]

/-- C3: when no explicit device address is supplied and the position lookup
yields no device, every command fails with the caller-visible error message,
performs exactly that one lookup, and issues no request at all. -/
theorem no_device_at_position_aborts (p : Rat) (lookup : Rat → Option Device)
    (ty topic freshId : String) (args params paramValues : List String)
    (intervalOpt : JSNum) (hden : p.den = 1) (hl : lookup p = none) :
    requestCommandAction ty args none (JSNum.num p) lookup freshId =
      (Except.error ("There is no device at position " ++ jsNumToString (JSNum.num p)),
        [CliEvent.lookupDevice p])
    ∧ uploadCommandAction params none (JSNum.num p) lookup freshId =
      (Except.error ("There is no device at position " ++ jsNumToString (JSNum.num p)),
        [CliEvent.lookupDevice p])
    ∧ downloadCommandAction paramValues none (JSNum.num p) lookup freshId =
      (Except.error ("There is no device at position " ++ jsNumToString (JSNum.num p)),
        [CliEvent.lookupDevice p])
    ∧ monitorCommandAction topic params none (JSNum.num p) intervalOpt lookup =
      (Except.error ("There is no device at position " ++ jsNumToString (JSNum.num p)),
        [CliEvent.lookupDevice p]) := by
  have hg := @gcda_lookup_missing none p lookup rfl hden hl
  refine ⟨?_, ?_, ?_, ?_⟩ <;>
    simp [requestCommandAction, uploadCommandAction, downloadCommandAction,
      monitorCommandAction, hg]

/-- Witness for C3 at position 0 with an empty system. -/
theorem no_device_at_position_aborts_witness :
    requestCommandAction "GetSystemVersion" [] none (JSNum.num 0) (fun _ => none) "m" =
      (Except.error ("There is no device at position " ++ jsNumToString (JSNum.num 0)),
        [CliEvent.lookupDevice 0])
    ∧ uploadCommandAction [] none (JSNum.num 0) (fun _ => none) "m" =
      (Except.error ("There is no device at position " ++ jsNumToString (JSNum.num 0)),
        [CliEvent.lookupDevice 0])
    ∧ downloadCommandAction [] none (JSNum.num 0) (fun _ => none) "m" =
      (Except.error ("There is no device at position " ++ jsNumToString (JSNum.num 0)),
        [CliEvent.lookupDevice 0])
    ∧ monitorCommandAction "t" [] none (JSNum.num 0) (JSNum.num 1000000) (fun _ => none) =
      (Except.error ("There is no device at position " ++ jsNumToString (JSNum.num 0)),
        [CliEvent.lookupDevice 0]) :=
  no_device_at_position_aborts 0 (fun _ => none) "GetSystemVersion" "t" "m" [] [] []
    (JSNum.num 1000000) (by decide) rfl

/-- C4: for every parameter string of the form index:subindex, the function
paramToIndexAndSubindex parses the index field with radix 16 (hexadecimal)
and the subindex field with radix 10 (decimal), returning the pair. -/
theorem param_index_hex_subindex_dec (i s : List Char)
    (hi : ':' ∉ i) (hs : ':' ∉ s) :
    paramToIndexAndSubindex (String.mk (i ++ ':' :: s)) =
      { index := parseIntJS 16 i, subindex := parseIntJS 10 s } :=
  paramToIndexAndSubindexChars_split hi hs

/-- Witness for C4 at the concrete parameter string "203d:10". -/
theorem param_index_hex_subindex_dec_witness :
    paramToIndexAndSubindex (String.mk (['2', '0', '3', 'd'] ++ ':' :: ['1', '0'])) =
      { index := JSNum.num 8253, subindex := JSNum.num 10 } := by
  rw [param_index_hex_subindex_dec ['2', '0', '3', 'd'] ['1', '0'] (by decide) (by decide)]
  decide

/-- C5 counterexample: the malformed parameter string "zz:1" (non-hexadecimal
index text) does not make request construction fail: the request command
succeeds and issues a request populated with a NaN index. -/
theorem malformed_param_still_requests :
    requestCommandAction "GetDeviceParameterValues" ["zz:1"] (some (JSNum.num 3))
        (JSNum.num 0) (fun _ => none) "m" =
      (Except.ok (),
        [CliEvent.registerExit "m",
          CliEvent.builderCall
            (BuilderCall.getDeviceParameterValues (some (JSNum.num 3))
              [{ index := JSNum.nan, subindex := JSNum.num 1 }] "m")]) := by
  decide

/-- C5 (amended): parameter parsing is total and never fails: a well-formed
numeral pair parses to its hexadecimal/decimal values; malformed index text
yields a NaN index inside a still-populated pair whose subindex is parsed
independently; malformed subindex text likewise yields a NaN subindex next to
the independently parsed index; and a string with no colon separator at all
still yields a populated pair whose index is parsed from the whole string and
whose subindex is NaN (parseInt receives the coerced text "undefined"). -/
theorem param_parse_never_fails (i s p : List Char)
    (hi : ':' ∉ i) (hs : ':' ∉ s) (hp : ':' ∉ p) :
    (isRadixDigits 16 i = true → isRadixDigits 10 s = true →
      paramToIndexAndSubindex (String.mk (i ++ ':' :: s)) =
        { index := JSNum.num (digitsValue 16 i), subindex := JSNum.num (digitsValue 10 s) })
    ∧ (parseIntJS 16 i = JSNum.nan →
      paramToIndexAndSubindex (String.mk (i ++ ':' :: s)) =
        { index := JSNum.nan, subindex := parseIntJS 10 s })
    ∧ (parseIntJS 10 s = JSNum.nan →
      paramToIndexAndSubindex (String.mk (i ++ ':' :: s)) =
        { index := parseIntJS 16 i, subindex := JSNum.nan })
    ∧ paramToIndexAndSubindex (String.mk p) =
        { index := parseIntJS 16 p, subindex := JSNum.nan } := by
  have hsplit : paramToIndexAndSubindex (String.mk (i ++ ':' :: s)) =
      { index := parseIntJS 16 i, subindex := parseIntJS 10 s } :=
    paramToIndexAndSubindexChars_split hi hs
  refine ⟨?_, ?_, ?_, ?_⟩
  · intro h16 h10
    obtain ⟨hne16, hall16⟩ := isRadixDigits_spec h16
    obtain ⟨hne10, hall10⟩ := isRadixDigits_spec h10
    rw [hsplit, parseIntJS_of_digits (Or.inr rfl) hne16 hall16,
      parseIntJS_of_digits (Or.inl rfl) hne10 hall10]
  · intro hnan
    rw [hsplit, hnan]
  · intro hnan
    rw [hsplit, hnan]
  · exact paramToIndexAndSubindexChars_no_sep hp

/-- Witness for the amended C5 at "2f:10" (well-formed), "zz:1" (malformed
index text), "2f:xx" (malformed subindex text) and "2f" (missing colon
separator). -/
theorem param_parse_never_fails_witness :
    paramToIndexAndSubindex (String.mk (['2', 'f'] ++ ':' :: ['1', '0'])) =
      { index := JSNum.num 47, subindex := JSNum.num 10 }
    ∧ paramToIndexAndSubindex (String.mk (['z', 'z'] ++ ':' :: ['1'])) =
      { index := JSNum.nan, subindex := JSNum.num 1 }
    ∧ paramToIndexAndSubindex (String.mk (['2', 'f'] ++ ':' :: ['x', 'x'])) =
      { index := JSNum.num 47, subindex := JSNum.nan }
    ∧ paramToIndexAndSubindex (String.mk ['2', 'f']) =
      { index := JSNum.num 47, subindex := JSNum.nan } := by
  refine ⟨?_, ?_, ?_, ?_⟩
  · rw [(param_parse_never_fails ['2', 'f'] ['1', '0'] ['2', 'f']
      (by decide) (by decide) (by decide)).1 (by decide) (by decide)]
    decide
  · rw [(param_parse_never_fails ['z', 'z'] ['1'] ['2', 'f']
      (by decide) (by decide) (by decide)).2.1 (by decide)]
    decide
  · rw [(param_parse_never_fails ['2', 'f'] ['x', 'x'] ['2', 'f']
      (by decide) (by decide) (by decide)).2.2.1 (by decide)]
    decide
  · rw [(param_parse_never_fails ['2', 'f'] ['1'] ['2', 'f']
      (by decide) (by decide) (by decide)).2.2.2]
    decide

/-- C6: for a registered message id, the process-exit signal fires on the
first inbound message carrying that id, never fires when no message carries
it, and fires at most once over any history. -/
theorem exit_on_first_matching_message (mid : String) (pre post : List MMessage)
    (m : MMessage) (hm : m.id = mid) (hpre : ∀ x ∈ pre, x.id ≠ mid) :
    exitOnMessageReceivedExits mid true (pre ++ m :: post) = 1
    ∧ (∀ msgs : List MMessage, (∀ x ∈ msgs, x.id ≠ mid) →
        exitOnMessageReceivedExits mid true msgs = 0)
    ∧ (∀ msgs : List MMessage, exitOnMessageReceivedExits mid true msgs ≤ 1) := by
  refine ⟨?_, ?_, ?_⟩
  · have hfpre : pre.filter (fun x => x.id == mid) = [] :=
      List.filter_eq_nil_iff.mpr (fun a ha => by simpa using hpre a ha)
    simp [exitOnMessageReceivedExits, rxFirst, rxFilter, List.filter_append, hfpre,
      List.filter_cons, hm]
  · intro msgs hmsgs
    have hf : msgs.filter (fun x => x.id == mid) = [] :=
      List.filter_eq_nil_iff.mpr (fun a ha => by simpa using hmsgs a ha)
    simp [exitOnMessageReceivedExits, rxFirst, rxFilter, hf]
  · intro msgs
    simp only [exitOnMessageReceivedExits, rxFirst, rxFilter, if_pos]
    exact List.length_take_le 1 (msgs.filter (fun x => x.id == mid))

/-- Witness for C6: with registered id "a", the history b, a, a produces
exactly one exit. -/
theorem exit_on_first_matching_message_witness :
    exitOnMessageReceivedExits "a" true [⟨"b"⟩, ⟨"a"⟩, ⟨"a"⟩] = 1 :=
  (exit_on_first_matching_message "a" [⟨"b"⟩] [⟨"a"⟩] ⟨"a"⟩ rfl (by decide)).1

/-- C7 counterexample: an explicitly supplied device address 0 is not used
directly: the truthiness test routes the call through a position lookup and
the resolved address of the device found there (5) is returned instead of
the supplied 0. -/
theorem explicit_zero_address_not_direct :
    getCommandDeviceAddress (some (JSNum.num 0)) (JSNum.num 0) (fun _ => some ⟨5⟩) =
      (Except.ok (some (JSNum.num 5)), [CliEvent.lookupDevice 0])
    ∧ (some (JSNum.num 5) : Option JSNum) ≠ some (JSNum.num 0) := by
  refine ⟨by decide, by decide⟩

/-- C7 (amended): the target device is resolved directly from the explicit
device-address option only when that option is truthy (present, nonzero and
not NaN), with no lookup; otherwise, when the device position is an integer,
exactly one round trip through the correlator maps the position to the
resolved device's address (or fails when there is no device); and when the
position is NaN the resolution returns undefined with no lookup. -/
theorem device_resolution_cases (addr : Option JSNum) (pos : JSNum)
    (lookup : Rat → Option Device) :
    (jsTruthy addr = true →
      getCommandDeviceAddress addr pos lookup = (Except.ok addr, []))
    ∧ (jsTruthy addr = false → isIntegerJS pos = false →
      getCommandDeviceAddress addr pos lookup = (Except.ok none, []))
    ∧ (∀ p : Rat, jsTruthy addr = false → pos = JSNum.num p → p.den = 1 →
      (∀ d : Device, lookup p = some d →
        getCommandDeviceAddress addr pos lookup =
          (Except.ok (some (JSNum.num d.deviceAddress)), [CliEvent.lookupDevice p]))
      ∧ (lookup p = none →
        getCommandDeviceAddress addr pos lookup =
          (Except.error ("There is no device at position " ++ jsNumToString pos),
            [CliEvent.lookupDevice p]))) := by
  refine ⟨fun h => gcda_of_truthy pos lookup h,
    fun h1 h2 => gcda_of_not_int lookup h1 h2, ?_⟩
  intro p h1 hpos hden
  subst hpos
  exact ⟨fun d hd => gcda_lookup_found h1 hden hd,
    fun hl => gcda_lookup_missing h1 hden hl⟩

/-- Witness for the amended C7: a truthy explicit address is returned
directly with no lookup. -/
theorem device_resolution_cases_witness :
    getCommandDeviceAddress (some (JSNum.num 7)) (JSNum.num 0) (fun _ => none) =
      (Except.ok (some (JSNum.num 7)), []) :=
  (device_resolution_cases (some (JSNum.num 7)) (JSNum.num 0) (fun _ => none)).1
    (by decide)

/-- C8: every download parameter-value string of the form
index:subindex=value yields a ParameterValue carrying the parsed value in
all three numeric fields (intValue, uintValue, floatValue) alongside the
parsed index and subindex. -/
theorem paramvalue_three_representations (i s v : List Char)
    (hi : ':' ∉ i) (hs : ':' ∉ s)
    (hie : '=' ∉ i) (hse : '=' ∉ s) (hv : '=' ∉ v) :
    paramValueToIndexAndSubindex (String.mk ((i ++ ':' :: s) ++ '=' :: v)) =
      { index := parseIntJS 16 i, subindex := parseIntJS 10 s,
        intValue := parseFloatJS v, uintValue := parseFloatJS v,
        floatValue := parseFloatJS v } := by
  have hp : '=' ∉ (i ++ ':' :: s) := by
    intro hmem
    rcases List.mem_append.mp hmem with h | h
    · exact hie h
    · rcases List.mem_cons.mp h with h | h
      · exact absurd h (by decide)
      · exact hse h
  show paramValueToIndexAndSubindexChars ((i ++ ':' :: s) ++ '=' :: v) = _
  rw [paramValueToIndexAndSubindexChars_split hp hv,
    paramToIndexAndSubindexChars_split hi hs]

/-- Witness for C8 at the concrete parameter-value string "203d:1=5.5". -/
theorem paramvalue_three_representations_witness :
    paramValueToIndexAndSubindex
        (String.mk ((['2', '0', '3', 'd'] ++ ':' :: ['1']) ++ '=' :: ['5', '.', '5'])) =
      { index := JSNum.num 8253, subindex := JSNum.num 1,
        intValue := JSNum.num (Rat.divInt 11 2), uintValue := JSNum.num (Rat.divInt 11 2),
        floatValue := JSNum.num (Rat.divInt 11 2) } := by
  rw [paramvalue_three_representations ['2', '0', '3', 'd'] ['1'] ['5', '.', '5']
    (by decide) (by decide) (by decide) (by decide) (by decide)]
  decide

/-- C9: an explicit device-address option parsing to 0 or NaN is falsy and
treated exactly like an absent option, so resolution proceeds by position
lookup; when additionally the position is NaN, resolution returns undefined
without error and the subsequent request is issued with an undefined device
address. -/
theorem falsy_address_treated_as_absent (pos : JSNum)
    (lookup : Rat → Option Device) (params : List String) (freshId : String) :
    getCommandDeviceAddress (some (JSNum.num 0)) pos lookup =
        getCommandDeviceAddress none pos lookup
    ∧ getCommandDeviceAddress (some JSNum.nan) pos lookup =
        getCommandDeviceAddress none pos lookup
    ∧ getCommandDeviceAddress (some (JSNum.num 0)) JSNum.nan lookup =
        (Except.ok none, [])
    ∧ uploadCommandAction params (some (JSNum.num 0)) JSNum.nan lookup freshId =
        (Except.ok (),
          [CliEvent.registerExit freshId,
            CliEvent.builderCall (BuilderCall.getDeviceParameterValues none
              (params.map paramToIndexAndSubindex) freshId)]) := by
  have h0 : jsTruthy (some (JSNum.num 0)) = false := by decide
  have hnone : jsTruthy (none : Option JSNum) = false := rfl
  have hnan : jsTruthy (some JSNum.nan) = false := rfl
  have hg : getCommandDeviceAddress (some (JSNum.num 0)) JSNum.nan lookup =
      (Except.ok none, []) := gcda_of_not_int lookup h0 rfl
  refine ⟨?_, ?_, hg, ?_⟩
  · simp [getCommandDeviceAddress, h0, hnone]
  · simp [getCommandDeviceAddress, hnan, hnone]
  · simp [uploadCommandAction, hg]

/-- C10: the monitor command subscribes to the topic-filtered notification
stream strictly before invoking startMonitoringDeviceParameterValues: in
every possible trace the startMonitoring event is preceded by the
subscription event. -/
theorem subscribe_before_monitoring_starts (topic : String)
    (params : List String) (addr : Option JSNum) (pos : JSNum)
    (intervalOpt : JSNum) (lookup : Rat → Option Device) :
    subscribeBeforeStart false
      (monitorCommandAction topic params addr pos intervalOpt lookup).2 = true := by
  simp only [monitorCommandAction]
  split
  · exact subscribeBeforeStart_gcda addr pos lookup false
  · simp [List.append_assoc, subscribeBeforeStart_gcda_append, subscribeBeforeStart]

end MotionMasterCli
